import Mathlib

/-!
Verification of the selector-synthesis, match-testing and code-generation
core of the "Python Scraper Studio" application.

The source is TypeScript; strings are embedded as `List Char` and every
JavaScript string operation used by the source (trim, split, indexOf,
substring, replace, startsWith/endsWith) is modelled by an explicit,
executable Lean function.  The two selector synthesizers
(`convertToCssSelector` from the code generator and `convertToSelector`
from the interactive app), the app's `handleTest` match engine, and the
three script emitters are translated definition by definition.
-/

namespace PyScraper

/-- Character strings, as the JS runtime sees them. -/
abbrev Str := List Char

/-- Coerce a Lean string literal to the `List Char` representation. -/
def str (s : String) : Str := s.toList

/-- JS whitespace (`\s` for the ASCII range, the range relevant here):
space, tab, newline, carriage return, vertical tab, form feed. -/
def isWS (c : Char) : Bool :=
  c = ' ' || c = '\t' || c = '\n' || c = '\r' || c = '\x0b' || c = '\x0c'

/-- JS `String.prototype.trim`: drop whitespace from both ends. -/
def jsTrim (l : Str) : Str :=
  ((l.dropWhile isWS).reverse.dropWhile isWS).reverse

/-- `s.split(',')`: split at every comma, keeping empty segments
(JS split never drops segments). -/
def splitCommaAux : Str → Str → List Str
  | [], acc => [acc.reverse]
  | c :: cs, acc =>
    if c = ',' then acc.reverse :: splitCommaAux cs []
    else splitCommaAux cs (c :: acc)

def splitComma (l : Str) : List Str := splitCommaAux l []

/-- The non-empty chunks of `s.split(/\s+/)`: maximal runs of
non-whitespace characters.  This is exactly
`value.split(/\s+/).filter(Boolean)` as used in the `class` branch of both
synthesizers. -/
def splitWSAux : Str → Str → List Str
  | [], acc => if acc.isEmpty then [] else [acc.reverse]
  | c :: cs, acc =>
    if isWS c then
      if acc.isEmpty then splitWSAux cs [] else acc.reverse :: splitWSAux cs []
    else splitWSAux cs (c :: acc)

def splitWS (l : Str) : List Str := splitWSAux l []

/-- `value.split(/\s+/)[0]` as used in the `id` branch of the code
generator's synthesizer: the empty string when `value` is empty or starts
with whitespace (a leading whitespace run contributes a leading empty
chunk in JS), otherwise the first maximal run of non-whitespace
characters. -/
def jsFirstToken : Str → Str
  | [] => []
  | c :: cs => if isWS c then [] else (c :: cs).takeWhile (fun d => !isWS d)

/-- `value.replace(/"/g, '\\"')`: double-quote characters are escaped with
a backslash. -/
def escQuote (c : Char) : Str := if c = '\x22' then ['\\', '\x22'] else [c]

def escapeQuotes (l : Str) : Str := (l.map escQuote).flatten

/-- Whether `value.startsWith('"') && value.endsWith('"')` or the same
with single quotes. -/
def isQuoteWrapped (l : Str) : Bool :=
  (l.head? = some '\x22' && l.getLast? = some '\x22') ||
  (l.head? = some '\x27' && l.getLast? = some '\x27')

/-- `value.substring(1, value.length - 1)`.  JS `substring` swaps its
arguments when `start > end`, so a one-character string is returned
unchanged (`substring(1, 0)` = `substring(0, 1)`). -/
def stripOnce (l : Str) : Str :=
  if l.length ≤ 1 then l else (l.drop 1).dropLast

/-- Strip exactly one layer of matching quotes, if present (lines 60-62 of
the code generator; the interactive synthesizer has no such step). -/
def stripQuotes (l : Str) : Str :=
  if isQuoteWrapped l then stripOnce l else l

/-- `key.toLowerCase()` (ASCII). -/
def lowerStr (l : Str) : Str := l.map Char.toLower

/-- `part.substring(0, part.indexOf('=')).trim()`: the text before the
first `=`, trimmed. -/
def keyOf (p : Str) : Str := jsTrim (p.takeWhile (fun c => c ≠ '='))

/-- `part.substring(part.indexOf('=') + 1).trim()`: the text after the
first `=`, trimmed (meaningful only when the part contains `=`). -/
def rawValOf (p : Str) : Str := jsTrim ((p.dropWhile (fun c => c ≠ '=')).tail)

/-- One iteration of the code generator's synthesis loop
(`convertToCssSelector`, lines 56-70): the text appended to the selector
for one attribute part (already trimmed and known to contain `=`).
Parts whose key or (quote-stripped) value is empty append nothing. -/
def genFilter (p : Str) : Str :=
  let key := keyOf p
  let value := stripQuotes (rawValOf p)
  if key = [] ∨ value = [] then []
  else if lowerStr key = str "id" then
    '#' :: jsFirstToken value
  else if lowerStr key = str "class" then
    let classes := List.intercalate ['.'] (splitWS value)
    if classes = [] then [] else '.' :: classes
  else
    '[' :: (key ++ '=' :: '\x22' :: (escapeQuotes value ++ ['\x22', ']']))

/-- The code generator's selector synthesizer (`convertToCssSelector`,
src/unnamed/part_000 lines 50-76), body of the `try` block.  Returns the
empty string for a blank tag, the trimmed tag for a blank clause, and
otherwise folds the attribute parts (split on `,`, trimmed, only parts
containing `=`) onto the trimmed tag. -/
def convertToCssSelector (tag attrs : Str) : Str :=
  if jsTrim tag = [] then []
  else
    let selector := jsTrim tag
    if jsTrim attrs = [] then selector
    else
      let parts := ((splitComma attrs).map jsTrim).filter (fun p => p.contains '=')
      parts.foldl (fun s p => s ++ genFilter p) selector

/-- The code generator's `catch` branch (part_000 lines 72-75): on an
unexpected exception while processing the attribute clause it returns the
bare trimmed tag. -/
def convertToCssSelectorOnError (tag : Str) : Str := jsTrim tag

/-- One iteration of the interactive app's synthesis loop
(`convertToSelector`, App.tsx lines 184-199).  Parts without `=` are
skipped (`continue`); the value is NOT quote-stripped; the `id` branch
replaces every whitespace character of the value with `#`
(`value.replace(/\s/g, '#')`). -/
def appFilter (p : Str) : Str :=
  if p.contains '=' = true then
    let key := keyOf p
    let value := rawValOf p
    if key = [] ∨ value = [] then []
    else if lowerStr key = str "id" then
      '#' :: value.map (fun c => if isWS c then '#' else c)
    else if lowerStr key = str "class" then
      let classes := List.intercalate ['.'] (splitWS value)
      if classes = [] then [] else '.' :: classes
    else
      '[' :: (key ++ '=' :: '\x22' :: (escapeQuotes value ++ ['\x22', ']']))
  else []

/-- The interactive app's selector synthesizer (`convertToSelector`,
App.tsx lines 179-204), body of the `try` block.  There is no blank-tag
early return; parts are split on `,`, trimmed, and empty parts dropped. -/
def convertToSelector (t a : Str) : Str :=
  let selector := jsTrim t
  if jsTrim a = [] then selector
  else
    let parts := ((splitComma a).map jsTrim).filter (fun p => !p.isEmpty)
    parts.foldl (fun s p => s ++ appFilter p) selector

/-- The interactive app's `catch` branch (App.tsx line 202): on an
unexpected exception it returns a sentinel string, not the trimmed tag. -/
def convertToSelectorOnError : Str := str "INVALID_SELECTOR_DUE_TO_ATTR_PARSE_ERROR"

/-- `convertToCssSelector` with its `try`/`catch` made explicit: `fault`
models an unexpected exception thrown while processing the attribute
clause (the blank-tag and blank-clause returns happen before the `try`). -/
def convertToCssSelectorTotal (fault : Bool) (tag attrs : Str) : Str :=
  if jsTrim tag = [] then []
  else if jsTrim attrs = [] then jsTrim tag
  else if fault then convertToCssSelectorOnError tag
  else convertToCssSelector tag attrs

/-- `convertToSelector` with its `try`/`catch` made explicit. -/
def convertToSelectorTotal (fault : Bool) (t a : Str) : Str :=
  if jsTrim a = [] then jsTrim t
  else if fault then convertToSelectorOnError
  else convertToSelector t a

/-! ## Data model (src/types.ts) -/

structure Extractor where
  id : Nat
  name : String
  tag : String
  attrs : String
deriving Repr, DecidableEq

structure ContainerDef where
  tag : String
  attrs : String
deriving Repr, DecidableEq

inductive OutputFormat
  | csv
  | json
  | print
deriving Repr, DecidableEq

inductive ScrapingMode
  | structured
  | simple
deriving Repr, DecidableEq

/-! ## The interactive match engine (`handleTest`, App.tsx lines 206-255)

The DOM is abstracted: a `Doc` answers `querySelectorAll` (`q`, returning
element handles), scoped `querySelector` existence (`sub`), `textContent`
(`text`) and whether the query facility accepts a selector (`valid`;
`false` models the `SyntaxError` that the `try`/`catch` converts into the
"Invalid Tag or Attributes" result). -/

structure TestResult where
  count : Nat
  preview : Str
  error : Bool
deriving Repr, DecidableEq

structure Doc where
  q : Str → List Nat
  sub : Nat → Str → Bool
  text : Nat → Str
  valid : Str → Bool

inductive TestTarget
  | container
  | extractor
deriving Repr, DecidableEq

/-- Decimal rendering of a count, as JS template interpolation does. -/
def natStr (n : Nat) : Str := (toString n).toList

/-- The result stored when the tag is blank or no document is loaded
(App.tsx lines 208-216). -/
def emptyTagResult : TestResult := ⟨0, str "HTML Tag is empty.", true⟩

/-- The result stored by the `catch` branch (App.tsx lines 247-254). -/
def invalidSelResult : TestResult := ⟨0, str "Invalid Tag or Attributes for testing.", true⟩

/-- The `handleTest` callback (App.tsx lines 206-255), as the `TestResult`
it stores for the tested descriptor. -/
def handleTest (doc : Option Doc) (scrapingMode : ScrapingMode) (container : ContainerDef)
    (ttype : TestTarget) (tag attrs : Str) : TestResult :=
  match doc with
  | none => emptyTagResult
  | some d =>
    if jsTrim tag = [] then emptyTagResult
    else
      let selector := convertToSelector tag attrs
      match ttype with
      | TestTarget.container =>
        if d.valid selector then
          let count := (d.q selector).length
          { count := count
            preview := str "Found " ++ natStr count ++ str " repeating container elements."
            error := !(decide (count > 0)) }
        else invalidSelResult
      | TestTarget.extractor =>
        if scrapingMode = ScrapingMode.structured ∧ container.tag ≠ "" then
          let containerSelector := convertToSelector container.tag.toList container.attrs.toList
          if d.valid containerSelector then
            let containers := d.q containerSelector
            if containers.length > 0 then
              if d.valid selector then
                let count := (containers.filter (fun c => d.sub c selector)).length
                { count := count
                  preview := natStr count ++ str " of " ++ natStr containers.length ++
                    str " containers have a match."
                  error := decide (count = 0) }
              else invalidSelResult
            else ⟨0, str "No containers found to test within.", true⟩
          else invalidSelResult
        else
          if d.valid selector then
            let ms := d.q selector
            let count := ms.length
            let preview := str "Found " ++ natStr count ++ str " total matches. Preview: " ++
              List.intercalate (str " | ")
                ((ms.take 3).map (fun el => (jsTrim (d.text el)).take 20 ++ str "..."))
            { count := count
              preview :=
                if preview = [] then str "Found " ++ natStr count ++ str " matches. (No text content)"
                else preview
              error := decide (count = 0) }
          else invalidSelResult

/-! ## The script emitters (src/unnamed/part_000 lines 78-260) -/

/-- `String`-typed wrapper around the synthesizer, as the emitters call it. -/
def cssSelOf (tag attrs : String) : String :=
  String.mk (convertToCssSelector tag.toList attrs.toList)

/-- `.replace(/"/g, '\\"')` on a `String`. -/
def escapeQuotesS (s : String) : String := String.mk (escapeQuotes s.toList)

/-- The `extractionLoop` template of `generateContainerBasedScript`
(part_000 lines 81-97). -/
def containerExtractionLoop (container : ContainerDef) (extractors : List Extractor) : String :=
  let containerSelector := escapeQuotesS (cssSelOf container.tag container.attrs)
  "\n# Find all the container elements\ncontainer_selector = \"" ++ containerSelector ++
  "\"\ncontainers = soup.select(container_selector)\nprint(f\"Found {len(containers)} containers.\")\n\n# --- Extract data from each container ---\nall_items = []\nfor container in containers:\n    item = {}\n" ++
  String.intercalate "\n" (extractors.map (fun e =>
    let fieldSelector := escapeQuotesS (cssSelOf e.tag e.attrs)
    "    field_element = container.select_one(\"" ++ fieldSelector ++
    "\")\n    item[\x27" ++ e.name ++
    "\x27] = field_element.get_text(strip=True) if field_element else None")) ++
  "\n    all_items.append(item)\n"

/-- `generateContainerBasedScript` (part_000 lines 78-147). -/
def generateContainerBasedScript (container : ContainerDef) (extractors : List Extractor)
    (outputFormat : OutputFormat) : String :=
  let extractionLoop := containerExtractionLoop container extractors
  match outputFormat with
  | OutputFormat.csv =>
    "\n" ++ extractionLoop ++
    "\n\n# --- Save data to CSV ---\nif all_items:\n    csv_file_name = \"output.csv\"\n    print(f\"\\nSaving data to {csv_file_name}...\")\n    try:\n        with open(csv_file_name, \x27w\x27, newline=\x27\x27, encoding=\x27utf-8\x27) as csvfile:\n            writer = csv.DictWriter(csvfile, fieldnames=all_items[0].keys())\n            writer.writeheader()\n            writer.writerows(all_items)\n        print(\"Data successfully saved to CSV.\")\n    except Exception as e:\n        print(f\"Error saving to CSV: {e}\")\nelse:\n    print(\"\\nNo data extracted to save.\")\n"
  | OutputFormat.json =>
    "\n" ++ extractionLoop ++
    "\n\n# --- Save data to JSON ---\nif all_items:\n    json_file_name = \"output.json\"\n    print(f\"\\nSaving data to {json_file_name}...\")\n    try:\n        with open(json_file_name, \x27w\x27, encoding=\x27utf-8\x27) as jsonfile:\n            json.dump(all_items, jsonfile, indent=4)\n        print(\"Data successfully saved to JSON.\")\n    except Exception as e:\n        print(f\"Error saving to JSON: {e}\")\nelse:\n    print(\"\\nNo data extracted to save.\")\n"
  | OutputFormat.print =>
    "\n" ++ extractionLoop ++
    "\n\n# --- Print Extracted Data ---\nprint(\"\\n--- Extracted Data ---\")\nfor item in all_items:\n    print(item)\n"

/-- The `extractionLogic` template of `generateSimpleListScript`
(part_000 lines 151-159). -/
def simpleExtractionLogic (extractor : Extractor) : String :=
  let selector := escapeQuotesS (cssSelOf extractor.tag extractor.attrs)
  "\n# Find all matching elements on the page\nselector = \"" ++ selector ++
  "\"\nelements = soup.select(selector)\nprint(f\"Found {len(elements)} matching elements.\")\n\n# Extract the text content from each element\nextracted_data = [el.get_text(strip=True) for el in elements]\n"

/-- `generateSimpleListScript` (part_000 lines 149-211). -/
def generateSimpleListScript (extractor : Extractor) (outputFormat : OutputFormat) : String :=
  let extractionLogic := simpleExtractionLogic extractor
  match outputFormat with
  | OutputFormat.csv =>
    "\n" ++ extractionLogic ++
    "\n\n# --- Save data to CSV ---\nif extracted_data:\n    csv_file_name = \"output.csv\"\n    print(f\"\\nSaving data to {csv_file_name}...\")\n    try:\n        with open(csv_file_name, \x27w\x27, newline=\x27\x27, encoding=\x27utf-8\x27) as csvfile:\n            writer = csv.writer(csvfile)\n            writer.writerow([\x27" ++ extractor.name ++
    "\x27])  # Header\n            for item in extracted_data:\n                writer.writerow([item])\n        print(\"Data successfully saved to CSV.\")\n    except Exception as e:\n        print(f\"Error saving to CSV: {e}\")\nelse:\n    print(\"\\nNo data extracted to save.\")\n"
  | OutputFormat.json =>
    "\n" ++ extractionLogic ++
    "\n\n# --- Save data to JSON ---\nif extracted_data:\n    json_file_name = \"output.json\"\n    print(f\"\\nSaving data to {json_file_name}...\")\n    try:\n        # Saving as a list of strings under a single key\n        output_json = \x7b\x27" ++ extractor.name ++
    "\x27: extracted_data\x7d\n        with open(json_file_name, \x27w\x27, encoding=\x27utf-8\x27) as jsonfile:\n            json.dump(output_json, jsonfile, indent=4)\n        print(\"Data successfully saved to JSON.\")\n    except Exception as e:\n        print(f\"Error saving to JSON: {e}\")\nelse:\n    print(\"\\nNo data extracted to save.\")\n"
  | OutputFormat.print =>
    "\n" ++ extractionLogic ++
    "\n\n# --- Print Extracted Data ---\nprint(\"\\n--- Extracted Data ---\")\nfor item in extracted_data:\n    print(item)\n"

/-- The import lines collected by `generateBeautifulSoupCode`
(part_000 lines 231-233): a set with insertion order. -/
def importsFor (outputFormat : OutputFormat) : List String :=
  ["from bs4 import BeautifulSoup"] ++
  (if outputFormat = OutputFormat.csv then ["import csv"] else []) ++
  (if outputFormat = OutputFormat.json then ["import json"] else [])

/-- `generateBeautifulSoupCode` (part_000 lines 221-260).  The file name is
escaped (double quotes only); extractor names are embedded verbatim by the
sub-generators. -/
def generateBeautifulSoupCode (scrapingMode : ScrapingMode) (container : ContainerDef)
    (extractors : List Extractor) (fileName : String) (outputFormat : OutputFormat) : String :=
  let sanitizedFileName := escapeQuotesS fileName
  if (scrapingMode = ScrapingMode.structured ∧ (container.tag = "" ∨ extractors.length = 0)) ∨
     (scrapingMode = ScrapingMode.simple ∧
       (match extractors.head? with
        | none => true
        | some e => e.tag == "") = true) then
    "# Please complete the definitions in Step 4 to generate the script.\n# - For Structured Data, define a container and at least one field.\n# - For a Simple List, define the single field you want to extract."
  else
    let mainScript :=
      match scrapingMode with
      | ScrapingMode.structured => generateContainerBasedScript container extractors outputFormat
      | ScrapingMode.simple =>
        generateSimpleListScript (extractors.headD ⟨0, "", "", ""⟩) outputFormat
    String.intercalate "\n" (importsFor outputFormat) ++
    "\n\n# --- Setup Instructions ---\n# 1. Make sure you have Python installed.\n# 2. Install required libraries:\n#    pip install beautifulsoup4\n\n# --- Script ---\nfile_name = \"" ++ sanitizedFileName ++
    "\"\n\ntry:\n    with open(file_name, \"r\", encoding=\"utf-8\") as f:\n        html_content = f.read()\nexcept FileNotFoundError:\n    print(f\"Error: The file \x27{file_name}\x27 was not found.\")\n    print(\"Please make sure it\x27s in the same directory as this Python script.\")\n    exit()\n\nsoup = BeautifulSoup(html_content, \"html.parser\")\n" ++
    mainScript ++ "\n"

/-- Is `needle` a prefix of `hay`? -/
def strPre : List Char → List Char → Bool
  | [], _ => true
  | _ :: _, [] => false
  | a :: as, b :: bs => a = b && strPre as bs

/-- Does `needle` occur contiguously in `hay`? -/
def strSub (needle : List Char) : List Char → Bool
  | [] => strPre needle []
  | c :: cs => strPre needle (c :: cs) || strSub needle cs

/-- Substring test on emitted program text. -/
def pyContains (hay needle : String) : Bool := strSub needle.toList hay.toList

/-! ## Semantics of the emitted structured-mode extraction loop

The emitted Python loop is

    all_items = []
    for container in containers:
        item = \x7b\x7d
        item[name_1] = ... get_text ... if field_element else None
        ...
        all_items.append(item)

modelled with Python dictionary semantics: a `Record` is an ordered
key-value list; assignment to an existing key overwrites the value in
place (keeping the key's original position), assignment to a new key
appends.  `f e` abstracts the value
`field_element.get_text(strip=True) if field_element else None` that the
emitted line computes for extractor `e` in the current container
(`none` = Python `None`). -/

abbrev Record := List (String × Option String)

/-- Python `item[k] = v`. -/
def dictInsert : Record → String → Option String → Record
  | [], k, v => [(k, v)]
  | kv :: rest, k, v => if kv.1 = k then (k, v) :: rest else kv :: dictInsert rest k v

/-- Python `item[k]` (as an option; `none` = key absent): the value at the
first — with unique keys, the only — entry for `k`. -/
def dictGet : Record → String → Option (Option String)
  | [], _ => none
  | kv :: rest, k => if kv.1 = k then some kv.2 else dictGet rest k

/-- Python `item.keys()`, in order. -/
def dictKeys (d : Record) : List String := d.map (fun kv => kv.1)

/-- The record built for one container by the emitted field-assignment
lines, in extractor order. -/
def buildItem (f : Extractor → Option String) (extractors : List Extractor) : Record :=
  extractors.foldl (fun item e => dictInsert item e.name (f e)) []

/-- `all_items` after the emitted loop: one appended record per container
element.  `fieldText c e` abstracts `container.select_one(sel)` +
`get_text` for container `c` and extractor `e`. -/
def allItems (containers : List Nat) (fieldText : Nat → Extractor → Option String)
    (extractors : List Extractor) : List Record :=
  containers.map (fun c => buildItem (fieldText c) extractors)

/-- `fieldnames=all_items[0].keys()` of the emitted CSV tail: the header
row is taken from the first record's keys. -/
def csvFieldnames (records : List Record) : List String := dictKeys (records.headD [])

/-! ## Definitions supporting the claim statements -/

/-- The first character (if any) is not whitespace. -/
def headNonWS : Str → Bool
  | [] => true
  | c :: _ => !isWS c

/-- The last character (if any) is not whitespace. -/
def lastNonWS (l : Str) : Bool := headNonWS l.reverse

/-- A trimmed attribute part on which the two synthesizers agree: its raw
value is not quote-wrapped, and when its key is `id` the value contains no
whitespace characters. -/
def plainPart (p : Str) : Bool :=
  !isQuoteWrapped (rawValOf p) &&
  (!(lowerStr (keyOf p) == str "id") || (rawValOf p).all (fun c => !isWS c))

/-- The container selector the extractor test re-synthesizes
(App.tsx line 230). -/
def containerSelOf (container : ContainerDef) : Str :=
  convertToSelector container.tag.toList container.attrs.toList

/-- The container elements containing at least one internal match for the
field selector (App.tsx line 233). -/
def coveredContainers (d : Doc) (container : ContainerDef) (tag attrs : Str) : List Nat :=
  (d.q (containerSelOf container)).filter (fun c => d.sub c (convertToSelector tag attrs))

def doc3 : Doc :=
  { q := fun s => if s = str "div" then [0, 1, 2] else []
    sub := fun c _ => decide (c < 2)
    text := fun _ => []
    valid := fun _ => true }

def c4Extractor : Extractor := ⟨1, "it\x27s", "span", ""⟩

def c4Program : String :=
  generateBeautifulSoupCode ScrapingMode.structured ⟨"div", ""⟩ [c4Extractor]
    "page.html" OutputFormat.print

def doc8 : Doc := ⟨fun _ => [], fun _ _ => false, fun _ => [], fun _ => true⟩

example : convertToCssSelector (str "div") (str "class=card, id=main") = str "div.card#main" := by decide
example : convertToCssSelector (str "div") (str "id=a b") = str "div#a" := by decide
example : convertToSelector (str "div") (str "id=a b") = str "div#a#b" := by decide
example : convertToCssSelector (str "div") (str "id=\x22x y\x22") = str "div#x" := by decide
example : convertToSelector (str "div") (str "title=\x22x\x22") = str "div[title=\x22\\\x22x\\\x22\x22]" := by decide
example : convertToCssSelector (str "a") (str "href=\x22foo\x22bar\x22") = str "a[href=\x22foo\\\x22bar\x22]" := by decide
example : convertToCssSelector (str "div") (str "a=1, note, b=2") = str "div[a=\x221\x22][b=\x222\x22]" := by decide
example : convertToSelector (str "div") (str "a=1, note, b=2") = str "div[a=\x221\x22][b=\x222\x22]" := by decide

/-! ## Helper lemmas about the JS string operations -/

theorem dropWhile_isWS_of_headNonWS {l : Str} (h : headNonWS l = true) :
    l.dropWhile isWS = l := by
  cases l with
  | nil => rfl
  | cons c cs =>
    simp only [headNonWS, Bool.not_eq_true'] at h
    simp [List.dropWhile, h]

theorem jsTrim_eq_self {l : Str} (h1 : headNonWS l = true) (h2 : lastNonWS l = true) :
    jsTrim l = l := by
  unfold jsTrim
  unfold lastNonWS at h2
  rw [dropWhile_isWS_of_headNonWS h1, dropWhile_isWS_of_headNonWS h2, List.reverse_reverse]

theorem headNonWS_append {l m : Str} (h : l ≠ []) : headNonWS (l ++ m) = headNonWS l := by
  cases l with
  | nil => exact absurd rfl h
  | cons c cs => rfl

theorem splitCommaAux_no_comma (l acc : Str) (h : ∀ c ∈ l, c ≠ ',') :
    splitCommaAux l acc = [acc.reverse ++ l] := by
  induction l generalizing acc with
  | nil => simp [splitCommaAux]
  | cons c cs ih =>
    rw [List.forall_mem_cons] at h
    simp [splitCommaAux, h.1, ih _ h.2]

theorem splitComma_no_comma {l : Str} (h : ∀ c ∈ l, c ≠ ',') : splitComma l = [l] := by
  unfold splitComma
  rw [splitCommaAux_no_comma l [] h]
  rfl

theorem foldl_append_flatten (f : Str → Str) (init : Str) (l : List Str) :
    l.foldl (fun s p => s ++ f p) init = init ++ (l.map f).flatten := by
  induction l generalizing init with
  | nil => simp
  | cons p ps ih => simp [List.foldl_cons, ih, List.append_assoc]

/-- Closed form of the code generator's synthesizer when tag and clause
are both non-blank. -/
theorem convertToCssSelector_closed {tag attrs : Str} (h1 : jsTrim tag ≠ [])
    (h2 : jsTrim attrs ≠ []) :
    convertToCssSelector tag attrs =
      jsTrim tag ++
        ((((splitComma attrs).map jsTrim).filter (fun p => p.contains '=')).map genFilter).flatten := by
  simp [convertToCssSelector, h1, h2, foldl_append_flatten]

/-- Closed form of the interactive synthesizer when the clause is
non-blank. -/
theorem convertToSelector_closed {t a : Str} (h2 : jsTrim a ≠ []) :
    convertToSelector t a =
      jsTrim t ++
        ((((splitComma a).map jsTrim).filter (fun p => !p.isEmpty)).map appFilter).flatten := by
  simp [convertToSelector, h2, foldl_append_flatten]

theorem lastNonWS_append {l m : Str} (h : m ≠ []) : lastNonWS (l ++ m) = lastNonWS m := by
  unfold lastNonWS
  rw [List.reverse_append, headNonWS_append (by simp [h])]

theorem lastNonWS_concat (l : Str) (c : Char) : lastNonWS (l ++ [c]) = !isWS c := by
  rw [lastNonWS_append (by simp)]
  rfl

theorem escapeQuotes_nil : escapeQuotes [] = [] := rfl

theorem escapeQuotes_cons (c : Char) (l : Str) :
    escapeQuotes (c :: l) = escQuote c ++ escapeQuotes l := by
  simp [escapeQuotes]

theorem escapeQuotes_append (l m : Str) :
    escapeQuotes (l ++ m) = escapeQuotes l ++ escapeQuotes m := by
  simp [escapeQuotes]

/-- Reduction of the code generator's synthesizer on a single comma-free,
already-trimmed clause containing `=`. -/
theorem convertToCssSelector_single {t p : Str} (h1 : jsTrim t ≠ [])
    (hnc : ∀ c ∈ p, c ≠ ',') (hh : headNonWS p = true) (hl : lastNonWS p = true)
    (he : p.contains '=' = true) :
    convertToCssSelector t p = jsTrim t ++ genFilter p := by
  have htr : jsTrim p = p := jsTrim_eq_self hh hl
  have hne : jsTrim p ≠ [] := by
    rw [htr]
    intro hp
    subst hp
    simp [List.contains] at he
  rw [convertToCssSelector_closed h1 hne, splitComma_no_comma hnc]
  have hm : '=' ∈ p := by simpa using he
  simp [htr, hm]

/-- Reduction of the interactive synthesizer on a single comma-free,
already-trimmed, non-empty clause. -/
theorem convertToSelector_single {t p : Str}
    (hnc : ∀ c ∈ p, c ≠ ',') (hh : headNonWS p = true) (hl : lastNonWS p = true)
    (hp : p ≠ []) :
    convertToSelector t p = jsTrim t ++ appFilter p := by
  have htr : jsTrim p = p := jsTrim_eq_self hh hl
  have hne : jsTrim p ≠ [] := by rw [htr]; exact hp
  rw [convertToSelector_closed hne, splitComma_no_comma hnc]
  simp [htr, hp]

/-! ## Claim C7 -/

/-- C7: for every clause string, parsing splits on `,`, ignores segments
without `=`, preserves the input order of the remaining constraints, and
never throws (both synthesizers are total Lean functions);
`parse("a=1, b=2")` yields the constraints `(a,1), (b,2)` in that order,
and both synthesizers append the generic filters in that same order, also
when a free-text segment without `=` sits between them. -/
theorem claim7_parse_split_order (t : Str) (h : jsTrim t ≠ []) :
    ((splitComma (str "a=1, b=2")).map jsTrim).filter (fun p => p.contains '=') =
      [str "a=1", str "b=2"] ∧
    keyOf (str "a=1") = str "a" ∧ rawValOf (str "a=1") = str "1" ∧
    keyOf (str "b=2") = str "b" ∧ rawValOf (str "b=2") = str "2" ∧
    convertToCssSelector t (str "a=1, b=2") = jsTrim t ++ str "[a=\x221\x22][b=\x222\x22]" ∧
    convertToSelector t (str "a=1, b=2") = jsTrim t ++ str "[a=\x221\x22][b=\x222\x22]" ∧
    convertToCssSelector t (str "a=1, note, b=2") = jsTrim t ++ str "[a=\x221\x22][b=\x222\x22]" ∧
    convertToSelector t (str "a=1, note, b=2") = jsTrim t ++ str "[a=\x221\x22][b=\x222\x22]" := by
  refine ⟨by decide, by decide, by decide, by decide, by decide, ?_, ?_, ?_, ?_⟩
  · rw [convertToCssSelector_closed h (by decide)]
    exact congrArg (jsTrim t ++ ·) (by decide)
  · rw [convertToSelector_closed (by decide)]
    exact congrArg (jsTrim t ++ ·) (by decide)
  · rw [convertToCssSelector_closed h (by decide)]
    exact congrArg (jsTrim t ++ ·) (by decide)
  · rw [convertToSelector_closed (by decide)]
    exact congrArg (jsTrim t ++ ·) (by decide)

/-- Witness for C7 at a concrete tag. -/
theorem claim7_parse_split_order_witness :
    jsTrim (str "div") ≠ [] ∧
    convertToCssSelector (str "div") (str "a=1, b=2") =
      jsTrim (str "div") ++ str "[a=\x221\x22][b=\x222\x22]" ∧
    convertToSelector (str "div") (str "a=1, note, b=2") =
      jsTrim (str "div") ++ str "[a=\x221\x22][b=\x222\x22]" :=
  ⟨by decide, (claim7_parse_split_order (str "div") (by decide)).2.2.2.2.2.1,
    (claim7_parse_split_order (str "div") (by decide)).2.2.2.2.2.2.2.2⟩

theorem takeWhile_of_all {p : Char → Bool} {l : Str} (h : ∀ c ∈ l, p c = true) :
    l.takeWhile p = l := by
  induction l with
  | nil => rfl
  | cons c cs ih =>
    rw [List.forall_mem_cons] at h
    rw [List.takeWhile_cons_of_pos h.1, ih h.2]

theorem jsFirstToken_of_nows {v : Str} (h2 : v ≠ []) (h : ∀ c ∈ v, isWS c = false) :
    jsFirstToken v = v := by
  cases v with
  | nil => exact absurd rfl h2
  | cons c cs =>
    rw [List.forall_mem_cons] at h
    have ht : List.takeWhile (fun d => !isWS d) (c :: cs) = c :: cs := by
      refine takeWhile_of_all ?_
      rw [List.forall_mem_cons]
      exact ⟨by simp [h.1], fun d hd => by simp [h.2 d hd]⟩
    simp [jsFirstToken, h.1, ht]

theorem map_wsHash_of_nows {v : Str} (h : ∀ c ∈ v, isWS c = false) :
    v.map (fun c => if isWS c then '#' else c) = v := by
  induction v with
  | nil => rfl
  | cons c cs ih =>
    rw [List.forall_mem_cons] at h
    simp [h.1, ih h.2]

theorem map_congr_mem {f g : Str → Str} {l : List Str} (h : ∀ a ∈ l, f a = g a) :
    l.map f = l.map g := by
  induction l with
  | nil => rfl
  | cons a as ih =>
    rw [List.forall_mem_cons] at h
    simp [h.1, ih h.2]

/-! ## Claim C1 -/

/-- Parts without `=` contribute nothing to the interactive selector, so
filtering by non-emptiness and filtering by containing `=` give the same
concatenation. -/
theorem appFilter_filter_swap (l : List Str) :
    ((l.filter (fun p => !p.isEmpty)).map appFilter).flatten =
    ((l.filter (fun p => p.contains '=')).map appFilter).flatten := by
  induction l with
  | nil => rfl
  | cons p ps ih =>
    by_cases hc : p.contains '=' = true
    · have hm : '=' ∈ p := by simpa using hc
      have hne : p.isEmpty = false := by
        cases p with
        | nil => simp [List.contains] at hc
        | cons c cs => rfl
      simp [List.filter_cons, hc, hm, hne, ih]
    · have hc' : p.contains '=' = false := by simpa using hc
      have hm : '=' ∉ p := by simpa using hc'
      have hA : appFilter p = [] := by
        unfold appFilter
        rw [if_neg hc]
      by_cases hne : p.isEmpty = true
      · simp [List.filter_cons, hc', hm, hne, ih]
      · have hne' : p.isEmpty = false := by simpa using hne
        simp [List.filter_cons, hc', hm, hne', hA, ih]

/-- On a plain, `=`-containing part the two per-part synthesis steps
agree. -/
theorem genFilter_eq_appFilter {p : Str} (hc : p.contains '=' = true)
    (hp : plainPart p = true) : genFilter p = appFilter p := by
  simp only [plainPart, Bool.and_eq_true, Bool.not_eq_true', Bool.or_eq_true] at hp
  obtain ⟨hq, hid⟩ := hp
  have hm : '=' ∈ p := by simpa using hc
  have hv : stripQuotes (rawValOf p) = rawValOf p := by simp [stripQuotes, hq]
  by_cases hkv : keyOf p = [] ∨ rawValOf p = []
  · simp [genFilter, appFilter, hc, hm, hv, hkv]
  · by_cases hkid : lowerStr (keyOf p) = str "id"
    · have hall : (rawValOf p).all (fun c => !isWS c) = true := by
        rcases hid with hne | hall
        · rw [beq_eq_false_iff_ne] at hne
          exact absurd hkid hne
        · exact hall
      have hnows : ∀ c ∈ rawValOf p, isWS c = false := by
        intro c hcm
        have := List.all_eq_true.mp hall c hcm
        simpa using this
      have hvne : rawValOf p ≠ [] := fun h => hkv (Or.inr h)
      simp [genFilter, appFilter, hc, hm, hv, hkv, hkid,
        jsFirstToken_of_nows hvne hnows, map_wsHash_of_nows hnows]
    · simp [genFilter, appFilter, hc, hm, hv, hkv, hkid]

/-- C1 counterexample: for the descriptor `(div, id=a b)` the selector
synthesized by the interactive MatchEngine path differs from the selector
embedded in the emitted program (`div#a#b` vs `div#a`), so the emitted
selectors do not in general reproduce the MatchEngine's match counts. -/
theorem claim1_counterexample :
    convertToCssSelector (str "div") (str "id=a b") ≠
      convertToSelector (str "div") (str "id=a b") := by decide

/-- C1 (amended): the selector synthesized by the interactive MatchEngine
path equals the selector embedded in the emitted program — hence equal
match counts against the same serialized document — for every descriptor
with a non-blank tag whose trimmed `=`-containing attribute parts all have
unquoted values and whitespace-free id values; for other descriptors the
two selectors can differ (quote-wrapped values and multi-token id values,
see the counterexample). -/
theorem claim1_selector_agreement (tag attrs : Str) (h1 : jsTrim tag ≠ [])
    (h2 : ∀ p ∈ (splitComma attrs).map jsTrim, p.contains '=' = true → plainPart p = true) :
    convertToCssSelector tag attrs = convertToSelector tag attrs := by
  by_cases ha : jsTrim attrs = []
  · simp [convertToCssSelector, convertToSelector, h1, ha]
  · rw [convertToCssSelector_closed h1 ha, convertToSelector_closed ha]
    refine congrArg (jsTrim tag ++ ·) ?_
    rw [appFilter_filter_swap]
    refine congrArg List.flatten ?_
    refine map_congr_mem ?_
    intro p hp
    have hmem : p ∈ (splitComma attrs).map jsTrim := (List.mem_filter.mp hp).1
    have hc : p.contains '=' = true := by
      have := (List.mem_filter.mp hp).2
      simpa using this
    exact genFilter_eq_appFilter hc (h2 p hmem hc)

/-- Witness for C1 on a well-behaved descriptor. -/
theorem claim1_selector_agreement_witness :
    convertToCssSelector (str "div") (str "class=quote, data-x=1") =
      convertToSelector (str "div") (str "class=quote, data-x=1") :=
  claim1_selector_agreement (str "div") (str "class=quote, data-x=1") (by decide) (by decide)

/-! ## Claim C2 -/

/-- C2 counterexample: the interactive synthesizer does not keep only the
first whitespace-delimited token of a multi-token id value — it replaces
every whitespace character with `#` (App.tsx line 191), so
`synthesize("div", "id=a b")` is `div#a#b` there, not `div#a`. -/
theorem claim2_counterexample :
    convertToSelector (str "div") (str "id=a b") = str "div#a#b" ∧
    convertToSelector (str "div") (str "id=a b") ≠ str "div#a" := by decide

/-- C2 (amended): for every tag and every trimmed, comma-free, unquoted id
value, the code generator's synthesizer appends `#` followed by only the
value's first whitespace-delimited token (`value.split(/\s+/)[0]`), while
the interactive synthesizer instead appends `#` followed by the value with
every whitespace character replaced by `#`; `synthesize("div", "id=a b")`
equals `div#a` on the code-generation path only (the interactive path
yields `div#a#b`). -/
theorem claim2_id_first_token (t v : Str) (h1 : jsTrim t ≠ []) (h2 : v ≠ [])
    (hh : headNonWS v = true) (hl : lastNonWS v = true)
    (hnc : ∀ c ∈ v, c ≠ ',') (hq : isQuoteWrapped v = false) :
    convertToCssSelector t (str "id=" ++ v) = jsTrim t ++ '#' :: jsFirstToken v ∧
    convertToSelector t (str "id=" ++ v) =
      jsTrim t ++ '#' :: v.map (fun c => if isWS c then '#' else c) := by
  have hattrs : str "id=" ++ v = 'i' :: 'd' :: '=' :: v := rfl
  have hnc' : ∀ c ∈ ('i' :: 'd' :: '=' :: v), c ≠ ',' := by
    rw [List.forall_mem_cons, List.forall_mem_cons, List.forall_mem_cons]
    exact ⟨by decide, by decide, by decide, hnc⟩
  have hh' : headNonWS ('i' :: 'd' :: '=' :: v) = true := rfl
  have hl' : lastNonWS ('i' :: 'd' :: '=' :: v) = true := by
    rw [show ('i' :: 'd' :: '=' :: v) = ['i', 'd', '='] ++ v from rfl, lastNonWS_append h2]
    exact hl
  have he' : ('i' :: 'd' :: '=' :: v).contains '=' = true := by simp
  have hkey : keyOf ('i' :: 'd' :: '=' :: v) = str "id" := by
    unfold keyOf
    rw [List.takeWhile_cons_of_pos (by decide), List.takeWhile_cons_of_pos (by decide),
        List.takeWhile_cons_of_neg (by decide)]
    decide
  have hval : rawValOf ('i' :: 'd' :: '=' :: v) = v := by
    unfold rawValOf
    rw [List.dropWhile_cons_of_pos (by decide), List.dropWhile_cons_of_pos (by decide),
        List.dropWhile_cons_of_neg (by decide)]
    exact jsTrim_eq_self hh hl
  have hkne : (str "id" : Str) ≠ [] := by decide
  have hlow : lowerStr (str "id") = str "id" := by decide
  rw [hattrs, convertToCssSelector_single h1 hnc' hh' hl' he',
      convertToSelector_single hnc' hh' hl' (by simp)]
  constructor
  · refine congrArg (jsTrim t ++ ·) ?_
    simp [genFilter, hkey, hval, stripQuotes, hq, hkne, h2, hlow]
  · refine congrArg (jsTrim t ++ ·) ?_
    simp [appFilter, he', hkey, hval, hkne, h2, hlow]

/-- Witness for C2 at tag `div`, id value `a b`. -/
theorem claim2_id_first_token_witness :
    convertToCssSelector (str "div") (str "id=" ++ str "a b") =
      jsTrim (str "div") ++ '#' :: jsFirstToken (str "a b") ∧
    convertToSelector (str "div") (str "id=" ++ str "a b") =
      jsTrim (str "div") ++ '#' :: (str "a b").map (fun c => if isWS c then '#' else c) :=
  claim2_id_first_token (str "div") (str "a b") (by decide) (by decide) (by decide)
    (by decide) (by decide) (by decide)

/-! ## Claim C5 -/

/-- C5 counterexample: quote stripping does not apply on the interactive
test synthesis path — the quotes of `title="x"` survive (escaped) into
the attribute filter, unlike on the code-generation path. -/
theorem claim5_counterexample :
    convertToCssSelector (str "div") (str "title=\x22x\x22") = str "div[title=\x22x\x22]" ∧
    convertToSelector (str "div") (str "title=\x22x\x22") ≠ str "div[title=\x22x\x22]" ∧
    convertToSelector (str "div") (str "title=\x22x\x22") =
      str "div[title=\x22\\\x22x\\\x22\x22]" := by decide

/-- C5 (amended): a value wrapped in a single matching pair of quotes has
exactly one layer of quoting stripped before use on the code-generation
synthesis path (in particular the generator parses `id="x y"` to the
value `x y`), but the interactive test synthesis path does not strip
quotes — the wrapping quotes are escaped into the generic attribute
filter instead. -/
theorem claim5_quote_strip (t v : Str) (h1 : jsTrim t ≠ []) (h2 : v ≠ [])
    (hnc : ∀ c ∈ v, c ≠ ',') :
    stripQuotes (rawValOf (str "id=\x22x y\x22")) = str "x y" ∧
    convertToCssSelector t (str "title=\x22" ++ (v ++ str "\x22")) =
      jsTrim t ++ ('[' :: (str "title" ++ '=' :: '\x22' :: (escapeQuotes v ++ ['\x22', ']']))) ∧
    convertToSelector t (str "title=\x22" ++ (v ++ str "\x22")) =
      jsTrim t ++ ('[' :: (str "title" ++ '=' :: '\x22' ::
        (('\\' :: '\x22' :: (escapeQuotes v ++ ['\\', '\x22'])) ++ ['\x22', ']']))) := by
  have hattrs : str "title=\x22" ++ (v ++ str "\x22") =
      't' :: 'i' :: 't' :: 'l' :: 'e' :: '=' :: '\x22' :: (v ++ ['\x22']) := rfl
  have hncv : ∀ c ∈ (v ++ ['\x22']), c ≠ ',' := by
    rw [List.forall_mem_append]
    exact ⟨hnc, by decide⟩
  have hnc' : ∀ c ∈ ('t' :: 'i' :: 't' :: 'l' :: 'e' :: '=' :: '\x22' :: (v ++ ['\x22'])),
      c ≠ ',' := by
    simp only [List.forall_mem_cons]
    exact ⟨by decide, by decide, by decide, by decide, by decide, by decide, by decide, hncv⟩
  have hh' : headNonWS ('t' :: 'i' :: 't' :: 'l' :: 'e' :: '=' :: '\x22' :: (v ++ ['\x22'])) =
      true := rfl
  have hl' : lastNonWS ('t' :: 'i' :: 't' :: 'l' :: 'e' :: '=' :: '\x22' :: (v ++ ['\x22'])) =
      true := by
    rw [show 't' :: 'i' :: 't' :: 'l' :: 'e' :: '=' :: '\x22' :: (v ++ ['\x22']) =
        ('t' :: 'i' :: 't' :: 'l' :: 'e' :: '=' :: '\x22' :: v) ++ ['\x22'] from by simp,
      lastNonWS_concat]
    decide
  have he' : ('t' :: 'i' :: 't' :: 'l' :: 'e' :: '=' :: '\x22' :: (v ++ ['\x22'])).contains '=' =
      true := by simp
  have hkey : keyOf ('t' :: 'i' :: 't' :: 'l' :: 'e' :: '=' :: '\x22' :: (v ++ ['\x22'])) =
      str "title" := by
    unfold keyOf
    rw [List.takeWhile_cons_of_pos (by decide), List.takeWhile_cons_of_pos (by decide),
        List.takeWhile_cons_of_pos (by decide), List.takeWhile_cons_of_pos (by decide),
        List.takeWhile_cons_of_pos (by decide), List.takeWhile_cons_of_neg (by decide)]
    decide
  have hval : rawValOf ('t' :: 'i' :: 't' :: 'l' :: 'e' :: '=' :: '\x22' :: (v ++ ['\x22'])) =
      '\x22' :: (v ++ ['\x22']) := by
    unfold rawValOf
    rw [List.dropWhile_cons_of_pos (by decide), List.dropWhile_cons_of_pos (by decide),
        List.dropWhile_cons_of_pos (by decide), List.dropWhile_cons_of_pos (by decide),
        List.dropWhile_cons_of_pos (by decide), List.dropWhile_cons_of_neg (by decide)]
    simp only [List.tail_cons]
    refine jsTrim_eq_self rfl ?_
    rw [show '\x22' :: (v ++ ['\x22']) = ('\x22' :: v) ++ ['\x22'] from by simp, lastNonWS_concat]
    decide
  have hlast : ('\x22' :: (v ++ ['\x22'])).getLast? = some '\x22' := by
    rw [show '\x22' :: (v ++ ['\x22']) = ('\x22' :: v) ++ ['\x22'] from by simp,
      List.getLast?_concat]
  have hwrap : isQuoteWrapped ('\x22' :: (v ++ ['\x22'])) = true := by
    simp [isQuoteWrapped, hlast]
  have hlen : ¬(('\x22' :: (v ++ ['\x22'])).length ≤ 1) := by
    simp
  have hstrip : stripQuotes ('\x22' :: (v ++ ['\x22'])) = v := by
    simp [stripQuotes, hwrap, stripOnce, hlen, List.dropLast_concat]
  have hkne : (str "title" : Str) ≠ [] := by decide
  have hlow1 : lowerStr (str "title") ≠ str "id" := by decide
  have hlow2 : lowerStr (str "title") ≠ str "class" := by decide
  refine ⟨by decide, ?_, ?_⟩
  · rw [hattrs, convertToCssSelector_single h1 hnc' hh' hl' he']
    refine congrArg (jsTrim t ++ ·) ?_
    simp [genFilter, hkey, hval, hstrip, hkne, h2, hlow1, hlow2]
  · rw [hattrs, convertToSelector_single hnc' hh' hl' (by simp)]
    refine congrArg (jsTrim t ++ ·) ?_
    simp [appFilter, he', hkey, hval, hkne, hlow1, hlow2, escapeQuotes_cons,
      escapeQuotes_append, escQuote, escapeQuotes_nil]

/-- Witness for C5 at tag `div` and inner value `x y`. -/
theorem claim5_quote_strip_witness :
    stripQuotes (rawValOf (str "id=\x22x y\x22")) = str "x y" ∧
    convertToCssSelector (str "div") (str "title=\x22" ++ (str "x y" ++ str "\x22")) =
      jsTrim (str "div") ++
        ('[' :: (str "title" ++ '=' :: '\x22' :: (escapeQuotes (str "x y") ++ ['\x22', ']']))) :=
  ⟨(claim5_quote_strip (str "div") (str "x y") (by decide) (by decide) (by decide)).1,
    (claim5_quote_strip (str "div") (str "x y") (by decide) (by decide) (by decide)).2.1⟩

/-! ## Claim C6 -/

/-- C6 counterexample: on a fault during clause processing the interactive
synthesizer returns the sentinel `INVALID_SELECTOR_DUE_TO_ATTR_PARSE_ERROR`
(App.tsx line 202), not the bare trimmed tag name the claim states for
both synthesis functions. -/
theorem claim6_counterexample :
    convertToSelectorTotal true (str "div") (str "x=1") =
      str "INVALID_SELECTOR_DUE_TO_ATTR_PARSE_ERROR" ∧
    convertToSelectorTotal true (str "div") (str "x=1") ≠ jsTrim (str "div") := by
  decide

/-- C6 (amended): synthesis never raises — both synthesizers are embedded
with the `try`/`catch` made explicit (`fault` models an exception in the
clause-processing body) — and on a fault the code generator's synthesizer
returns the bare trimmed tag name, while the interactive one returns the
sentinel string `INVALID_SELECTOR_DUE_TO_ATTR_PARSE_ERROR` instead. -/
theorem claim6_fault_fallback (t a : Str) (h1 : jsTrim t ≠ []) (h2 : jsTrim a ≠ []) :
    convertToCssSelectorTotal true t a = jsTrim t ∧
    convertToSelectorTotal true t a = str "INVALID_SELECTOR_DUE_TO_ATTR_PARSE_ERROR" := by
  constructor
  · simp [convertToCssSelectorTotal, h1, h2, convertToCssSelectorOnError]
  · simp [convertToSelectorTotal, h2, convertToSelectorOnError]

/-- Witness for C6 at a concrete input. -/
theorem claim6_fault_fallback_witness :
    convertToCssSelectorTotal true (str "div") (str "x=1") = jsTrim (str "div") ∧
    convertToSelectorTotal true (str "div") (str "x=1") =
      str "INVALID_SELECTOR_DUE_TO_ATTR_PARSE_ERROR" :=
  claim6_fault_fallback (str "div") (str "x=1") (by decide) (by decide)

/-! ## Claim C3 -/

/-- C3: for every structured-mode extractor test with a non-empty container
tag and at least one container match, the returned `matchCount` is the
number of containers containing at least one internal match for the field
selector (not the total match count), the preview states
`"N of M containers have a match."`, and the error flag holds exactly when
that count is zero. -/
theorem claim3_structured_coverage (d : Doc) (container : ContainerDef) (tag attrs : Str)
    (h1 : jsTrim tag ≠ []) (h2 : container.tag ≠ "")
    (h3 : d.valid (containerSelOf container) = true)
    (h4 : (d.q (containerSelOf container)).length > 0)
    (h5 : d.valid (convertToSelector tag attrs) = true) :
    handleTest (some d) ScrapingMode.structured container TestTarget.extractor tag attrs =
      { count := (coveredContainers d container tag attrs).length
        preview := natStr (coveredContainers d container tag attrs).length ++ str " of " ++
          natStr (d.q (containerSelOf container)).length ++ str " containers have a match."
        error := decide ((coveredContainers d container tag attrs).length = 0) } := by
  simp only [containerSelOf, String.toList] at h3 h4
  simp [handleTest, coveredContainers, containerSelOf, h1, h2, h3, h4, h5]

/-- Witness for C3: a document with 3 containers of which 2 contain a
matching field element yields `matchCount = 2` and the stated preview. -/
theorem claim3_structured_coverage_witness :
    handleTest (some doc3) ScrapingMode.structured ⟨"div", ""⟩ TestTarget.extractor
      (str "span") (str "") = ⟨2, str "2 of 3 containers have a match.", false⟩ := by
  rw [claim3_structured_coverage doc3 ⟨"div", ""⟩ (str "span") (str "")
    (by decide) (by decide) rfl (by decide) rfl]
  decide

/-! ## Claim C4 -/

set_option maxRecDepth 40000 in
/-- C4: the emitter escapes the source-file name's double quotes, but it
embeds extractor names verbatim: with the name `it's` the emitted program
contains the broken single-quoted key literal `item['it's']` and no
backslash-escaped variant of the name, while a double quote in the file
name does get escaped. -/
theorem claim4_name_not_escaped :
    pyContains c4Program "item[\x27it\x27s\x27]" = true ∧
    pyContains c4Program "it\\\x27s" = false ∧
    pyContains (generateBeautifulSoupCode ScrapingMode.structured ⟨"div", ""⟩ [c4Extractor]
      "my\x22file.html" OutputFormat.print) "my\\\x22file.html" = true := by
  refine ⟨?_, ?_, ?_⟩ <;> decide

/-! ## Claims C9 and C10 -/

theorem find?_append {α} (p : α → Bool) (l₁ l₂ : List α) :
    List.find? p (l₁ ++ l₂) = (List.find? p l₁).orElse (fun _ => List.find? p l₂) := by
  induction l₁ with
  | nil => simp [Option.orElse]
  | cons a as ih =>
    cases h : p a with
    | true => simp [List.find?, h, Option.orElse]
    | false => simp [List.find?, h, ih]

theorem dictGet_insert (d : Record) (k k' : String) (v : Option String) :
    dictGet (dictInsert d k v) k' = if k' = k then some v else dictGet d k' := by
  induction d with
  | nil =>
    by_cases h : k' = k
    · subst h; simp [dictInsert, dictGet]
    · simp [dictInsert, dictGet, h, Ne.symm h]
  | cons kv rest ih =>
    simp only [dictInsert]
    by_cases h1 : kv.1 = k
    · rw [if_pos h1]
      by_cases h : k' = k
      · subst h; simp [dictGet]
      · simp [dictGet, h1, h, Ne.symm h]
    · rw [if_neg h1]
      by_cases h2 : kv.1 = k'
      · have hk : ¬(k' = k) := fun hh => h1 (h2.trans hh)
        simp [dictGet, h2, hk]
      · simp [dictGet, h2, ih]

theorem dictKeys_insert (d : Record) (k : String) (v : Option String) :
    dictKeys (dictInsert d k v) =
      if k ∈ dictKeys d then dictKeys d else dictKeys d ++ [k] := by
  induction d with
  | nil => simp [dictInsert, dictKeys]
  | cons kv rest ih =>
    by_cases h1 : kv.1 = k
    · simp [dictInsert, dictKeys, h1]
    · have hmem : k ∈ dictKeys (kv :: rest) ↔ k ∈ dictKeys rest := by
        simp [dictKeys, Ne.symm h1]
      rw [show dictKeys (dictInsert (kv :: rest) k v) =
          kv.1 :: dictKeys (dictInsert rest k v) from by simp [dictInsert, h1, dictKeys]]
      rw [ih]
      by_cases h2 : k ∈ dictKeys rest
      · rw [if_pos h2, if_pos (hmem.mpr h2)]
        simp [dictKeys]
      · rw [if_neg h2, if_neg (fun hh => h2 (hmem.mp hh))]
        simp [dictKeys]

theorem dictKeys_nodup_insert (d : Record) (h : (dictKeys d).Nodup) (k : String)
    (v : Option String) : (dictKeys (dictInsert d k v)).Nodup := by
  rw [dictKeys_insert]
  by_cases h2 : k ∈ dictKeys d
  · simpa [h2] using h
  · simp [h2, List.nodup_append, h]

theorem mem_dictKeys_insert (d : Record) (k k' : String) (v : Option String) :
    k' ∈ dictKeys (dictInsert d k v) ↔ k' ∈ dictKeys d ∨ k' = k := by
  rw [dictKeys_insert]
  by_cases h2 : k ∈ dictKeys d
  · simp only [h2, if_true]
    exact ⟨Or.inl, fun h => h.elim id (fun he => he ▸ h2)⟩
  · simp [h2]

theorem dictGet_buildItemAux (f : Extractor → Option String) (es : List Extractor)
    (d : Record) (k : String) :
    dictGet (es.foldl (fun item e => dictInsert item e.name (f e)) d) k =
      (match es.reverse.find? (fun e => e.name == k) with
       | some e => some (f e)
       | none => dictGet d k) := by
  induction es generalizing d with
  | nil => simp
  | cons e es ih =>
    simp only [List.foldl_cons, List.reverse_cons]
    rw [ih]
    cases hfind : es.reverse.find? (fun e' => e'.name == k) with
    | some e' => rw [find?_append, hfind]; simp [Option.orElse]
    | none =>
      rw [find?_append, hfind]
      simp only [Option.orElse]
      rw [dictGet_insert]
      by_cases hk : e.name = k
      · simp [List.find?, hk]
      · have hb : (e.name == k) = false := by simpa using hk
        simp [List.find?, hb, Ne.symm hk, hk]

theorem dictGet_buildItem (f : Extractor → Option String) (es : List Extractor) (k : String) :
    dictGet (buildItem f es) k =
      (es.reverse.find? (fun e => e.name == k)).map (fun e => f e) := by
  rw [buildItem, dictGet_buildItemAux]
  cases es.reverse.find? (fun e => e.name == k) <;> simp [dictGet]

theorem dictKeys_buildItemAux_nodup (f : Extractor → Option String) (es : List Extractor)
    (d : Record) (h : (dictKeys d).Nodup) :
    (dictKeys (es.foldl (fun item e => dictInsert item e.name (f e)) d)).Nodup := by
  induction es generalizing d with
  | nil => simpa
  | cons e es ih => exact ih _ (dictKeys_nodup_insert _ h _ _)

theorem mem_dictKeys_buildItemAux (f : Extractor → Option String) (es : List Extractor)
    (d : Record) (k : String) :
    k ∈ dictKeys (es.foldl (fun item e => dictInsert item e.name (f e)) d) ↔
      k ∈ dictKeys d ∨ k ∈ es.map Extractor.name := by
  induction es generalizing d with
  | nil => simp
  | cons e es ih =>
    simp only [List.foldl_cons, List.map_cons, List.mem_cons]
    rw [ih, mem_dictKeys_insert]
    tauto

/-- C9: in every emitted structured-mode program each record is a
dictionary keyed by extractor name: the value stored under a name is the
value of the last extractor with that name (a later extractor overwrites
an earlier one with the same name within each record), the record's key
list has no duplicates yet covers exactly the extractor names, and the
tabular header is taken from the first record's keys — so the output has
one column per distinct field name rather than one per extractor. -/
theorem claim9_duplicate_names_overwrite (f : Extractor → Option String)
    (es : List Extractor) (k : String) :
    dictGet (buildItem f es) k =
      (es.reverse.find? (fun e => e.name == k)).map (fun e => f e) ∧
    (dictKeys (buildItem f es)).Nodup ∧
    (k ∈ dictKeys (buildItem f es) ↔ k ∈ es.map Extractor.name) ∧
    (∀ (c : Nat) (cs : List Nat) (fieldText : Nat → Extractor → Option String),
      csvFieldnames (allItems (c :: cs) fieldText es) = dictKeys (buildItem (fieldText c) es)) :=
  ⟨dictGet_buildItem f es k,
   dictKeys_buildItemAux_nodup f es [] (by simp [dictKeys]),
   by rw [buildItem, mem_dictKeys_buildItemAux]; simp [dictKeys],
   fun c cs fieldText => rfl⟩

theorem mem_dictInsert (d : Record) (k : String) (v : Option String) :
    ∀ kv ∈ dictInsert d k v, kv ∈ d ∨ kv = (k, v) := by
  induction d with
  | nil => simp [dictInsert]
  | cons kv' rest ih =>
    by_cases h : kv'.1 = k
    · intro kv hkv
      simp only [dictInsert, if_pos h, List.mem_cons] at hkv
      rcases hkv with h1 | h1
      · exact Or.inr h1
      · exact Or.inl (List.mem_cons_of_mem _ h1)
    · intro kv hkv
      simp only [dictInsert, if_neg h, List.mem_cons] at hkv
      rcases hkv with h1 | h1
      · exact Or.inl (by simp [h1])
      · rcases ih kv h1 with h2 | h2
        · exact Or.inl (List.mem_cons_of_mem _ h2)
        · exact Or.inr h2

theorem buildItem_none_aux (f : Extractor → Option String) (es : List Extractor) (d : Record)
    (hd : ∀ kv ∈ d, kv.2 = none) (hf : ∀ e ∈ es, f e = none) :
    ∀ kv ∈ es.foldl (fun item e => dictInsert item e.name (f e)) d, kv.2 = none := by
  induction es generalizing d with
  | nil => exact hd
  | cons e es ih =>
    rw [List.forall_mem_cons] at hf
    refine ih _ ?_ hf.2
    intro kv hkv
    rcases mem_dictInsert d e.name (f e) kv hkv with h | h
    · exact hd kv h
    · rw [h]
      simpa using hf.1

/-- C10: every emitted structured-mode program appends exactly one record
per matched container element, so the number of records (and rows written,
for every output format, which all share this extraction loop) equals the
container match count; a container in which every field selector misses
still contributes a record all of whose values are `None`. -/
theorem claim10_one_record_per_container (containers : List Nat)
    (fieldText : Nat → Extractor → Option String) (es : List Extractor) :
    (allItems containers fieldText es).length = containers.length ∧
    (∀ c ∈ containers, (∀ e ∈ es, fieldText c e = none) →
      ∀ kv ∈ buildItem (fieldText c) es, kv.2 = none) := by
  constructor
  · simp [allItems]
  · intro c _ hnone
    exact buildItem_none_aux (fieldText c) es [] (by simp) hnone

/-- Witness for C10: two containers, one extractor, no matches anywhere. -/
theorem claim10_one_record_per_container_witness :
    (allItems [0, 1] (fun _ _ => none) [⟨1, "a", "span", ""⟩]).length = 2 ∧
    (("a", (none : Option String)) : String × Option String).2 = none :=
  ⟨(claim10_one_record_per_container [0, 1] (fun _ _ => none) [⟨1, "a", "span", ""⟩]).1,
   (claim10_one_record_per_container [0, 1] (fun _ _ => none) [⟨1, "a", "span", ""⟩]).2 0
     (by decide) (fun _ _ => rfl) ("a", none) (by decide)⟩

/-! ## Claim C8 -/

/-- C8: for every descriptor whose tag name trims to empty — and likewise
whenever no document is loaded — the test operation returns the
`⟨0, "HTML Tag is empty.", error := true⟩` result, and the result equals
the no-document result (no query is attempted against the document). -/
theorem claim8_empty_tag_test (doc : Option Doc) (mode : ScrapingMode)
    (container : ContainerDef) (ttype : TestTarget) (tag attrs : Str)
    (h : jsTrim tag = [] ∨ doc = none) :
    handleTest doc mode container ttype tag attrs = ⟨0, str "HTML Tag is empty.", true⟩ ∧
    handleTest doc mode container ttype tag attrs =
      handleTest none mode container ttype tag attrs := by
  cases doc with
  | none => exact ⟨rfl, rfl⟩
  | some d =>
    have htag : jsTrim tag = [] := by
      rcases h with h | h
      · exact h
      · exact absurd h (by simp)
    refine ⟨?_, ?_⟩ <;> simp [handleTest, htag, emptyTagResult]

/-- Witness for C8: a whitespace-only tag with a loaded document. -/
theorem claim8_empty_tag_test_witness :
    handleTest (some doc8) ScrapingMode.structured ⟨"div", "class=quote"⟩ TestTarget.extractor
      (str "  ") (str "class=text") = ⟨0, str "HTML Tag is empty.", true⟩ :=
  (claim8_empty_tag_test _ _ _ _ _ _ (Or.inl (by decide))).1

end PyScraper
